import Mathlib

/-
Verification of docs/create_db_models.py: a SQLAlchemy script that declares
twelve entity models, creates the tables, seeds two sample rows per entity,
and commits them in one batch.

Shallow embedding: each `Column(...)` declaration becomes a `ColumnSpec`,
each model class a `TableSpec`, each seed object construction a `Row`
(the keyword arguments, exactly as written in the source), and the script
body (`create_all`, the twelve `session.add_all` calls, `session.commit()`,
`session.close()`) becomes the function `runScriptWith`.

Python `float` literals (prices, amounts) are embedded as the exact decimal
rationals written in the source; no arithmetic is performed on them, so
floating-point rounding is irrelevant. `datetime.datetime(...)` literals
become `DateTime` records. Storage-assigned autoincrement ids are modelled
as the 1-based insertion position within an initially empty table, matching
SQLite autoincrement on a fresh table.
-/

namespace CreateDbModels

/-- A calendar timestamp, embedding `datetime.datetime(y, m, d)` literals
(hour/minute/second zero when omitted, as in Python). -/
structure DateTime where
  year : Nat
  month : Nat
  day : Nat
  hour : Nat
  minute : Nat
  second : Nat
deriving DecidableEq

/-- `datetime.datetime(y, m, d)` with the time components defaulted to 0. -/
def mkDate (y m d : Nat) : DateTime := ⟨y, m, d, 0, 0, 0⟩

/-- The column types used by the source: Integer, String, Float, DateTime. -/
inductive ColType where
  | intType
  | stringType
  | floatType
  | dateTimeType
deriving DecidableEq

/-- One `Column(...)` declaration. Fields, in order:
column name; type; `nullable` flag (SQLAlchemy default is `True`);
`primary_key` flag; `ForeignKey` target table (the table part of
`ForeignKey('parent.id')`); whether `default=datetime.datetime.now`
is declared. -/
structure ColumnSpec where
  name : String
  type : ColType
  nullable : Bool
  isPrimaryKey : Bool
  foreignKey : Option String
  defaultNow : Bool
deriving DecidableEq

/-- One model class: its `__tablename__` and its column declarations in
source order. -/
structure TableSpec where
  name : String
  columns : List ColumnSpec
deriving DecidableEq

/-- A field value as stored: integer, string, decimal (source `Float`
literal), timestamp, or SQL NULL. -/
inductive Value where
  | int (n : Int)
  | str (s : String)
  | dec (q : Rat)
  | dt (d : DateTime)
  | null
deriving DecidableEq

/-- A record as constructed in the source: the keyword arguments of one
model-object construction (field name to value). -/
abbrev Row := List (String × Value)

/-- The standard autoincrement primary-key column `id`. -/
def idCol : ColumnSpec := ⟨"id", ColType.intType, false, true, none, false⟩

/-- class Customer, __tablename__ = 'customers'. -/
def customersTable : TableSpec :=
  ⟨"customers",
   [idCol,
    ⟨"name", ColType.stringType, false, false, none, false⟩,
    ⟨"email", ColType.stringType, true, false, none, false⟩,
    ⟨"phone_number", ColType.stringType, true, false, none, false⟩]⟩

/-- class Product, __tablename__ = 'products'. -/
def productsTable : TableSpec :=
  ⟨"products",
   [idCol,
    ⟨"name", ColType.stringType, false, false, none, false⟩,
    ⟨"description", ColType.stringType, true, false, none, false⟩,
    ⟨"price", ColType.floatType, true, false, none, false⟩]⟩

/-- class Order, __tablename__ = 'orders'. -/
def ordersTable : TableSpec :=
  ⟨"orders",
   [idCol,
    ⟨"customer_id", ColType.intType, false, false, some "customers", false⟩,
    ⟨"order_date", ColType.dateTimeType, true, false, none, true⟩]⟩

/-- class OrderDetail, __tablename__ = 'order_details'. -/
def orderDetailsTable : TableSpec :=
  ⟨"order_details",
   [idCol,
    ⟨"order_id", ColType.intType, false, false, some "orders", false⟩,
    ⟨"product_id", ColType.intType, false, false, some "products", false⟩,
    ⟨"quantity", ColType.intType, false, false, none, false⟩]⟩

/-- class Address, __tablename__ = 'addresses'. -/
def addressesTable : TableSpec :=
  ⟨"addresses",
   [idCol,
    ⟨"customer_id", ColType.intType, false, false, some "customers", false⟩,
    ⟨"address_line1", ColType.stringType, false, false, none, false⟩,
    ⟨"address_line2", ColType.stringType, true, false, none, false⟩,
    ⟨"city", ColType.stringType, false, false, none, false⟩,
    ⟨"postal_code", ColType.stringType, true, false, none, false⟩]⟩

/-- class Supplier, __tablename__ = 'suppliers'. -/
def suppliersTable : TableSpec :=
  ⟨"suppliers",
   [idCol,
    ⟨"name", ColType.stringType, false, false, none, false⟩,
    ⟨"contact_name", ColType.stringType, true, false, none, false⟩]⟩

/-- class Inventory, __tablename__ = 'inventory'. -/
def inventoryTable : TableSpec :=
  ⟨"inventory",
   [idCol,
    ⟨"product_id", ColType.intType, false, false, some "products", false⟩,
    ⟨"supplier_id", ColType.intType, false, false, some "suppliers", false⟩,
    ⟨"quantity", ColType.intType, false, false, none, false⟩]⟩

/-- class Payment, __tablename__ = 'payments'. -/
def paymentsTable : TableSpec :=
  ⟨"payments",
   [idCol,
    ⟨"customer_id", ColType.intType, false, false, some "customers", false⟩,
    ⟨"amount", ColType.floatType, false, false, none, false⟩,
    ⟨"payment_date", ColType.dateTimeType, true, false, none, true⟩]⟩

/-- class Category, __tablename__ = 'categories'. -/
def categoriesTable : TableSpec :=
  ⟨"categories",
   [idCol,
    ⟨"name", ColType.stringType, false, false, none, false⟩]⟩

/-- class ProductCategory, __tablename__ = 'product_categories'. -/
def productCategoriesTable : TableSpec :=
  ⟨"product_categories",
   [idCol,
    ⟨"product_id", ColType.intType, false, false, some "products", false⟩,
    ⟨"category_id", ColType.intType, false, false, some "categories", false⟩]⟩

/-- class Employee, __tablename__ = 'employees'. -/
def employeesTable : TableSpec :=
  ⟨"employees",
   [idCol,
    ⟨"name", ColType.stringType, false, false, none, false⟩,
    ⟨"hire_date", ColType.dateTimeType, true, false, none, true⟩]⟩

/-- class Shipment, __tablename__ = 'shipments'. -/
def shipmentsTable : TableSpec :=
  ⟨"shipments",
   [idCol,
    ⟨"order_id", ColType.intType, false, false, some "orders", false⟩,
    ⟨"ship_date", ColType.dateTimeType, true, false, none, false⟩]⟩

/-- The twelve model classes in their declaration order in the source file. -/
def declaredTables : List TableSpec :=
  [customersTable, productsTable, ordersTable, orderDetailsTable,
   addressesTable, suppliersTable, inventoryTable, paymentsTable,
   categoriesTable, productCategoriesTable, employeesTable, shipmentsTable]

/-- Seed list `customers`: the keyword arguments of the two
`Customer(...)` constructions. -/
def customers : List Row :=
  [[("name", Value.str "John Doe"), ("email", Value.str "john.doe@example.com"),
    ("phone_number", Value.str "123456789")],
   [("name", Value.str "Jane Smith"), ("email", Value.str "jane.smith@example.com"),
    ("phone_number", Value.str "987654321")]]

/-- Seed list `products`. -/
def products : List Row :=
  [[("name", Value.str "Widget"), ("description", Value.str "A useful widget"),
    ("price", Value.dec (1999 / 100))],
   [("name", Value.str "Gadget"), ("description", Value.str "An awesome gadget"),
    ("price", Value.dec (2999 / 100))]]

/-- Seed list `orders`. -/
def orders : List Row :=
  [[("customer_id", Value.int 1), ("order_date", Value.dt (mkDate 2023 1 1))],
   [("customer_id", Value.int 2), ("order_date", Value.dt (mkDate 2023 2 1))]]

/-- Seed list `order_details`. -/
def order_details : List Row :=
  [[("order_id", Value.int 1), ("product_id", Value.int 1), ("quantity", Value.int 5)],
   [("order_id", Value.int 2), ("product_id", Value.int 2), ("quantity", Value.int 3)]]

/-- Seed list `addresses`. -/
def addresses : List Row :=
  [[("customer_id", Value.int 1), ("address_line1", Value.str "123 Elm St"),
    ("city", Value.str "Somewhere"), ("postal_code", Value.str "12345")],
   [("customer_id", Value.int 2), ("address_line1", Value.str "456 Maple Ave"),
    ("city", Value.str "Anywhere"), ("postal_code", Value.str "67890")]]

/-- Seed list `suppliers`. -/
def suppliers : List Row :=
  [[("name", Value.str "ABC Supplies"), ("contact_name", Value.str "Alice")],
   [("name", Value.str "XYZ Wholesale"), ("contact_name", Value.str "Bob")]]

/-- Seed list `inventory`. -/
def inventory : List Row :=
  [[("product_id", Value.int 1), ("supplier_id", Value.int 1), ("quantity", Value.int 100)],
   [("product_id", Value.int 2), ("supplier_id", Value.int 2), ("quantity", Value.int 200)]]

/-- Seed list `payments`. -/
def payments : List Row :=
  [[("customer_id", Value.int 1), ("amount", Value.dec (9995 / 100)),
    ("payment_date", Value.dt ⟨2023, 1, 15, 0, 0, 0⟩)],
   [("customer_id", Value.int 2), ("amount", Value.dec (8997 / 100)),
    ("payment_date", Value.dt ⟨2023, 2, 16, 0, 0, 0⟩)]]

/-- Seed list `categories`. -/
def categories : List Row :=
  [[("name", Value.str "Technology")],
   [("name", Value.str "Household")]]

/-- Seed list `product_categories`. -/
def product_categories : List Row :=
  [[("product_id", Value.int 1), ("category_id", Value.int 1)],
   [("product_id", Value.int 2), ("category_id", Value.int 2)]]

/-- Seed list `employees`. -/
def employees : List Row :=
  [[("name", Value.str "Manager Mike"), ("hire_date", Value.dt (mkDate 2022 1 1))],
   [("name", Value.str "Worker Wanda"), ("hire_date", Value.dt (mkDate 2022 2 1))]]

/-- Seed list `shipments`. -/
def shipments : List Row :=
  [[("order_id", Value.int 1), ("ship_date", Value.dt (mkDate 2023 1 10))],
   [("order_id", Value.int 2), ("ship_date", Value.dt (mkDate 2023 2 10))]]

/-- The twelve `session.add_all(...)` calls, in source order: each pairs a
model class with the seed list that is submitted for it. -/
def seedBatches : List (TableSpec × List Row) :=
  [(customersTable, customers), (productsTable, products),
   (ordersTable, orders), (orderDetailsTable, order_details),
   (addressesTable, addresses), (suppliersTable, suppliers),
   (inventoryTable, inventory), (paymentsTable, payments),
   (categoriesTable, categories), (productCategoriesTable, product_categories),
   (employeesTable, employees), (shipmentsTable, shipments)]

/-- The database: rows stored per table name. A row's storage-assigned `id`
appears as its first field once flushed. -/
abbrev DB := List (String × List Row)

/-- Look up the field `n` in a constructed record. -/
def fieldOf (r : Row) (n : String) : Option Value :=
  (r.find? (fun p => p.1 == n)).map (fun p => p.2)

/-- Flush-time materialization of one record against its table's columns:
every non-primary-key column takes the value passed at construction, or the
declared `default=datetime.datetime.now` value (evaluated at flush time,
hence the `now` parameter), or NULL. This is how SQLAlchemy turns the
constructed object into an INSERT. -/
def materialize (t : TableSpec) (now : DateTime) (r : Row) : Row :=
  t.columns.filterMap (fun c =>
    if c.isPrimaryKey then none
    else some (c.name,
      match fieldOf r c.name with
      | some v => v
      | none => if c.defaultNow then Value.dt now else Value.null))

/-- Flush one batch into the database: rows are appended to the named table
and receive consecutive autoincrement ids continuing from the rows already
present. -/
def flushBatch (now : DateTime) (db : DB) (t : TableSpec) (rs : List Row) : DB :=
  db.map (fun p =>
    if p.1 == t.name then
      (p.1, p.2 ++ rs.enum.map (fun q =>
        ("id", Value.int (Int.ofNat (p.2.length + q.1 + 1))) :: materialize t now q.2))
    else p)

/-- `Base.metadata.create_all(engine)`: for each declared table, create it
if no table of that NAME exists in the target; a pre-existing table of the
same name is left untouched whatever its structure, and the call never
raises for a structural mismatch (SQLAlchemy `create_all` with its default
`checkfirst=True` checks existence by name only). -/
def createAll (declared : List TableSpec) (target : List TableSpec) : List TableSpec :=
  target ++ declared.filter (fun t => !(target.any (fun u => u.name == t.name)))

/-- The observable result of one run of the script. -/
structure Outcome where
  schemas : List TableSpec
  db : DB
  committed : Bool
  sessionClosed : Bool
  errored : Bool
deriving DecidableEq

/-- The script body, over an arbitrary list of submitted batches:
`create_all` against the `target` schemas, a session whose `add_all` calls
accumulate all batches, then ONE `session.commit()` and, after it returns,
`session.close()`. The commit is a single transaction: `commitOk` abstracts
the storage layer's verdict on it; on success all pending rows are flushed
(column defaults evaluated at `now`), on failure the commit raises, the
transaction is rolled back leaving every table as before, and the
`session.close()` line is never reached because the script has no
try/finally around the commit. -/
def runScriptWith (batches : List (TableSpec × List Row))
    (target : List TableSpec) (now : DateTime) (commitOk : Bool) : Outcome :=
  let schemas := createAll declaredTables target
  let db0 : DB := schemas.map (fun t => (t.name, ([] : List Row)))
  if commitOk then
    Outcome.mk schemas
      (batches.foldl (fun d b => flushBatch now d b.1 b.2) db0) true true false
  else
    Outcome.mk schemas db0 false false true

/-- The script exactly as in the source: the twelve seed batches, submitted
against a fresh target. -/
def runScript (now : DateTime) (commitOk : Bool) : Outcome :=
  runScriptWith seedBatches [] now commitOk

/-- Rows of a table in the database. -/
def tableRows (db : DB) (n : String) : List Row :=
  ((db.find? (fun p => p.1 == n)).map (fun p => p.2)).getD []

/-- A fixed timestamp used to instantiate runs at a concrete time. -/
def epoch : DateTime := mkDate 1970 1 1

/-- An ordering of table names respects the foreign-key dependency graph of
the declared models when, for every declared table and every foreign-key
column it carries, the referenced parent table occurs strictly earlier in
the ordering. -/
def topoOK (ns : List String) : Bool :=
  declaredTables.all (fun t =>
    t.columns.all (fun c =>
      match c.foreignKey with
      | some p =>
        match ns.indexOf? p, ns.indexOf? t.name with
        | some i, some j => Nat.blt i j
        | _, _ => false
      | none => true))

/-- Number of seed records submitted for the table named `p`. -/
def parentCount (p : String) : Nat :=
  ((seedBatches.find? (fun b => b.1.name == p)).map (fun b => b.2.length)).getD 0

/-- Every foreign-key field of every seed record holds an ordinal between 1
and the number of records in the referenced parent seed list. -/
def refIntegrityOK : Bool :=
  seedBatches.all (fun b =>
    b.2.all (fun r =>
      b.1.columns.all (fun c =>
        match c.foreignKey with
        | some p =>
          match fieldOf r c.name with
          | some (Value.int k) => decide (1 ≤ k ∧ k ≤ Int.ofNat (parentCount p))
          | _ => false
        | none => true)))

/-- Every foreign-key value of every persisted row equals the `id` of some
row of the referenced parent table in the database. -/
def dbRefOK (db : DB) : Bool :=
  declaredTables.all (fun t =>
    (tableRows db t.name).all (fun r =>
      t.columns.all (fun c =>
        match c.foreignKey with
        | some p =>
          match fieldOf r c.name with
          | some v => (tableRows db p).any (fun pr => decide (fieldOf pr "id" = some v))
          | none => false
        | none => true)))

/-- Every column declared with the current-time default is given an explicit
value in every seed record of its table, so the default never fires. -/
def explicitDatesOK : Bool :=
  seedBatches.all (fun b =>
    b.2.all (fun r =>
      b.1.columns.all (fun c => !c.defaultNow || (fieldOf r c.name).isSome)))

/-- The (table, field) pairs the specification marks as required. -/
def requiredFields : List (String × String) :=
  [("customers", "name"), ("products", "name"), ("orders", "customer_id"),
   ("order_details", "quantity"), ("order_details", "order_id"),
   ("order_details", "product_id"),
   ("addresses", "address_line1"), ("addresses", "city"),
   ("suppliers", "name"),
   ("inventory", "quantity"), ("inventory", "product_id"),
   ("inventory", "supplier_id"),
   ("payments", "amount"), ("categories", "name"), ("employees", "name"),
   ("shipments", "order_id")]

/-- Each required field is declared `nullable=False` and is set to a
non-null value in every seed record of its table. -/
def requiredFieldsOK : Bool :=
  requiredFields.all (fun q =>
    (declaredTables.any (fun t => t.name == q.1 &&
      t.columns.any (fun c => c.name == q.2 && !c.nullable))) &&
    (seedBatches.all (fun b => !(b.1.name == q.1) || b.2.all (fun r =>
      match fieldOf r q.2 with
      | some Value.null => false
      | some _ => true
      | none => false))))

/-- The `orders` seed list with its first record rewritten to reference the
non-existent customer ordinal 99 (only 2 customers are seeded): probe input
for the construction-time foreign-key check the specification demands. -/
def badOrders : List Row :=
  [[("customer_id", Value.int 99), ("order_date", Value.dt (mkDate 2023 1 1))],
   [("customer_id", Value.int 2), ("order_date", Value.dt (mkDate 2023 2 1))]]

/-- The submitted batches with `orders` replaced by `badOrders`. -/
def badSeedBatches : List (TableSpec × List Row) :=
  seedBatches.map (fun b => if b.1.name == "orders" then (b.1, badOrders) else b)

/-- A pre-existing `customers` table whose `name` column has an incompatible
type (Integer instead of String): probe target for conflict detection. -/
def badCustomersTable : TableSpec :=
  ⟨"customers",
   [idCol, ⟨"name", ColType.intType, false, false, none, false⟩]⟩

/-- The ordinal-`i` row (1-based, as the spec counts) of table `n`. -/
def rowAt (db : DB) (n : String) (i : Nat) : Row :=
  (tableRows db n).getD (i - 1) []

/-- Claim C1: the twelve entity types are declared, and their seed batches
submitted, in a topological order of the foreign-key dependency graph —
every foreign-key edge points to a table that occurs strictly earlier both
in the declaration order and in the `add_all` submission order (which in
fact coincide). -/
theorem declaration_and_submission_topologically_ordered :
    topoOK (declaredTables.map (fun t => t.name)) = true ∧
    topoOK (seedBatches.map (fun b => b.1.name)) = true ∧
    declaredTables.map (fun t => t.name) = seedBatches.map (fun b => b.1.name) := by
  decide

/-- Claim C2: after schema creation and seeding against a fresh empty
target, `customers` has exactly 2 rows with the stated name/email values,
the `orders` row with ordinal 1 has `customer_id` equal to the `id` of the
customer with ordinal 1, and the `order_details` row with ordinal 1 has
quantity 5 and references the order and product with ordinal 1. -/
theorem full_seed_scenario (now : DateTime) :
    (tableRows (runScript now true).db "customers").length = 2 ∧
    fieldOf (rowAt (runScript now true).db "customers" 1) "name" =
      some (Value.str "John Doe") ∧
    fieldOf (rowAt (runScript now true).db "customers" 1) "email" =
      some (Value.str "john.doe@example.com") ∧
    fieldOf (rowAt (runScript now true).db "customers" 2) "name" =
      some (Value.str "Jane Smith") ∧
    fieldOf (rowAt (runScript now true).db "customers" 2) "email" =
      some (Value.str "jane.smith@example.com") ∧
    fieldOf (rowAt (runScript now true).db "orders" 1) "customer_id" =
      fieldOf (rowAt (runScript now true).db "customers" 1) "id" ∧
    fieldOf (rowAt (runScript now true).db "order_details" 1) "quantity" =
      some (Value.int 5) ∧
    fieldOf (rowAt (runScript now true).db "order_details" 1) "order_id" =
      fieldOf (rowAt (runScript now true).db "orders" 1) "id" ∧
    fieldOf (rowAt (runScript now true).db "order_details" 1) "product_id" =
      fieldOf (rowAt (runScript now true).db "products" 1) "id" := by
  have h : runScript now true = runScript epoch true := rfl
  rw [h]; decide

/-- Claim C3: every foreign-key field of every seed record references an
ordinal that exists in the corresponding parent seed list, and consequently
after a successful seed every persisted foreign-key value equals the `id` of
an existing row of the parent table. -/
theorem referential_integrity (now : DateTime) :
    refIntegrityOK = true ∧ dbRefOK (runScript now true).db = true := by
  have h : runScript now true = runScript epoch true := rfl
  rw [h]; decide

/-- Claim C4: all 24 seed records are submitted in one unit of work closed
by a single commit; when the commit succeeds every table holds its 2 rows,
and when the storage layer fails the commit every one of the twelve tables
holds zero rows — no partial state. -/
theorem atomic_single_commit (now : DateTime) (ok : Bool) :
    (seedBatches.foldl (fun a b => a + b.2.length) 0 = 24) ∧
    (runScript now ok).committed = ok ∧
    ((runScript now ok).db.all
      (fun p => p.2.length == (if ok then 2 else 0))) = true := by
  have h : runScript now ok = runScript epoch ok := by cases ok <;> rfl
  rw [h]; cases ok <;> decide

/-- Claim C5: the seeded output is independent of the time of the run —
two runs at arbitrary times produce identical outcomes — because every
column carrying a current-time default is given an explicit literal date in
every seed record. -/
theorem deterministic_seed (t1 t2 : DateTime) (ok : Bool) :
    runScript t1 ok = runScript t2 ok ∧ explicitDatesOK = true := by
  refine ⟨?_, by decide⟩
  cases ok <;> rfl

/-- Claim C6 as stated is false: a foreign-key reference to the
non-existent customer ordinal 99 is not detected during seed-record
construction and no error is ever raised — the run completes, commits, and
persists the dangling reference, leaving the database in violation of
referential integrity. -/
theorem unchecked_ordinal_counterexample :
    fieldOf (rowAt (runScriptWith badSeedBatches [] epoch true).db "orders" 1)
        "customer_id" = some (Value.int 99) ∧
    (tableRows (runScriptWith badSeedBatches [] epoch true).db "customers").length = 2 ∧
    (runScriptWith badSeedBatches [] epoch true).errored = false ∧
    (runScriptWith badSeedBatches [] epoch true).committed = true ∧
    dbRefOK (runScriptWith badSeedBatches [] epoch true).db = false := by
  decide

/-- Claim C6 amended: seed-record construction performs no foreign-key
ordinal validation and the program defines no ReferentialIntegrityError —
whatever batches are submitted, the construction-and-submission path raises
no error of its own; the fixed seed data, however, happens to reference only
existing ordinals. -/
theorem construction_performs_no_ordinal_check
    (batches : List (TableSpec × List Row)) (now : DateTime) :
    (runScriptWith batches [] now true).errored = false ∧
    refIntegrityOK = true := by
  exact ⟨rfl, by decide⟩

/-- Claim C7 as stated is false: against a target whose pre-existing
`customers` table has an incompatible column type, schema creation does not
fail — `create_all` checks existence by name only, leaves the incompatible
table in place, and the run commits, writing 2 rows into the `customers`
table rather than zero rows anywhere. -/
theorem schema_conflict_counterexample :
    badCustomersTable ≠ customersTable ∧
    (createAll declaredTables [badCustomersTable]).head? = some badCustomersTable ∧
    (runScriptWith seedBatches [badCustomersTable] epoch true).errored = false ∧
    (runScriptWith seedBatches [badCustomersTable] epoch true).committed = true ∧
    (tableRows (runScriptWith seedBatches [badCustomersTable] epoch true).db
      "customers").length = 2 := by
  decide

/-- Claim C7 amended: schema creation is create-if-absent keyed on table
name — against a target where all declared tables already exist it does not
fail and does not duplicate tables (the physical schema set is unchanged),
and against an empty target it creates exactly the declared tables; but an
existing table with an incompatible structure is NOT detected: no
SchemaConflict is raised, the incompatible table is kept, and seeding
proceeds to write rows into it. -/
theorem create_if_absent_no_conflict_detection (now : DateTime) (ok : Bool) :
    (runScriptWith seedBatches declaredTables now ok).schemas = declaredTables ∧
    createAll declaredTables [] = declaredTables ∧
    (runScriptWith seedBatches [badCustomersTable] now true).schemas.head? =
      some badCustomersTable ∧
    (tableRows (runScriptWith seedBatches [badCustomersTable] now true).db
      "customers").length = 2 := by
  have h1 : runScriptWith seedBatches declaredTables now ok =
      runScriptWith seedBatches declaredTables epoch ok := by cases ok <;> rfl
  have h2 : runScriptWith seedBatches [badCustomersTable] now true =
      runScriptWith seedBatches [badCustomersTable] epoch true := rfl
  rw [h1, h2]; cases ok <;> decide

/-- Claim C8: every field the specification marks as required is declared
`nullable=False` and is set to a non-null value in every seed record of its
entity type. -/
theorem required_fields_nonnull : requiredFieldsOK = true := by
  decide

/-- Claim C9 as stated is false: on the run where the commit fails, the
script errors out and `session.close()` is never executed — the session is
not released on the failure path. -/
theorem session_leak_counterexample :
    (runScript epoch false).errored = true ∧
    (runScript epoch false).sessionClosed = false := by
  decide

/-- Claim C9 amended: the session is closed exactly on the success path —
`session.close()` runs after the commit returns, and when the commit raises
the script, having no try/finally, never reaches the close call. -/
theorem session_closed_only_on_success
    (target : List TableSpec) (now : DateTime) (ok : Bool) :
    (runScriptWith seedBatches target now ok).sessionClosed = ok := by
  cases ok <;> rfl

/-- Claim C10: twelve seed batches are submitted, one per entity type, each
holding exactly 2 records, the batch table names are pairwise distinct, and
after a successful seed the database holds exactly twelve tables of exactly
2 rows each. -/
theorem two_records_per_entity (now : DateTime) :
    seedBatches.length = 12 ∧
    (seedBatches.all (fun b => b.2.length == 2)) = true ∧
    (seedBatches.map (fun b => b.1.name)).Nodup ∧
    (runScript now true).db.length = 12 ∧
    ((runScript now true).db.all (fun p => p.2.length == 2)) = true := by
  have h : runScript now true = runScript epoch true := rfl
  rw [h]; decide

end CreateDbModels

